import Mathlib

/-! # `support.h` of the PyPy C backend: safe memory access layer

A shallow embedding of `pypy/translator/c/src/support.h`.

* A C expression is embedded as a computation `Exec α`: it receives the state
  of the process environment (`World`) and gives back an `Outcome` together
  with the new state.
* Pointers are `Ptr σ`: either `NULL` or the address of an object.
* A sequence of items in memory is a partial map from offsets to cells
  (`Cells α`): `none` stands for an offset at which the object has no item.
* Indices and lengths are C `long` values.  The macros only compare them
  (`>=`, `<`), which cannot overflow, so they are embedded as `Int`.
* `RPyRaiseSimpleException` is not defined by the header: the `FAIL_*` macros
  take it as a parameter, and a model of it after its documented interface is
  given for the statements that need its behaviour.
* The preprocessor symbols that select the expansion of the macros are the
  fields of `Config`.  `PYPY_NOT_MAIN_FILE` only decides which translation
  unit holds the bodies of `RPyAbort` and `RPyAssertFailed`; every call
  reaches those bodies, so it is not part of `Config`.
-/

namespace Support

/-! ## Process model -/

/-- Exception kinds handed to the exception-raising collaborator: the three
identifiers that `FAIL_OVF`, `FAIL_VAL` and `FAIL_ZER` name.  The header uses
them and does not define them; they are kept as identifiers. -/
inductive ExcKind where
  | PyExc_OverflowError
  | PyExc_ValueError
  | PyExc_ZeroDivisionError
  deriving DecidableEq, Repr

/-- The part of the process environment that the header touches: the text
written so far to the standard error stream, and the calls made so far to
`RPyRaiseSimpleException` (most recent last). -/
structure World where
  stderr : String
  raised : List (ExcKind × String)
  deriving DecidableEq, Repr

/-- How the evaluation of a C expression ends. -/
inductive Outcome (α : Type) where
  /-- Evaluation completes and yields `v`. -/
  | value (v : α)
  /-- The process was terminated by `abort()`. -/
  | aborted
  /-- A null pointer was dereferenced. -/
  | nullDeref
  /-- An offset at which the object has no item was read. -/
  | badRead
  /-- Control left for the exception mechanism of the host language. -/
  | raised
  deriving DecidableEq, Repr

/-- A C expression or statement: a state transformer with an outcome. -/
def Exec (α : Type) : Type := World → Outcome α × World

/-- An expression without effect. -/
def Exec.ret {α : Type} (v : α) : Exec α := fun w => (Outcome.value v, w)

/-- Sequencing (`;`, the comma operator, argument evaluation): what follows
runs only when what precedes completed. -/
def Exec.seq {α β : Type} (m : Exec α) (f : α → Exec β) : Exec β := fun w =>
  match m w with
  | (Outcome.value v, w1) => f v w1
  | (Outcome.aborted, w1) => (Outcome.aborted, w1)
  | (Outcome.nullDeref, w1) => (Outcome.nullDeref, w1)
  | (Outcome.badRead, w1) => (Outcome.badRead, w1)
  | (Outcome.raised, w1) => (Outcome.raised, w1)

instance : Monad Exec where
  pure := Exec.ret
  bind := Exec.seq

/-- C library `fprintf(stderr, ...)`, after formatting: appends `text` to the
standard error stream. -/
def fprintf_stderr (text : String) : Exec Unit := fun w =>
  (Outcome.value (), { w with stderr := w.stderr ++ text })

/-- C library `void abort(void)`: terminates the process. -/
def abort : Exec Unit := fun w => (Outcome.aborted, w)

/-- C `a && b`: `b` is evaluated only when `a` is true. -/
def land (a b : Exec Bool) : Exec Bool := do
  if (← a) then b else pure false

/-! ## Memory model -/

/-- A pointer: `NULL`, or the address of an object of type `σ`. -/
inductive Ptr (σ : Type) where
  | null
  | addr (obj : σ)
  deriving DecidableEq, Repr

/-- C truth value of a pointer: `(ptr)` used as a condition. -/
def Ptr.toBool {σ : Type} : Ptr σ → Bool
  | Ptr.null => false
  | Ptr.addr _ => true

/-- Dereferencing, `ptr->` or `*ptr`. -/
def Ptr.deref {σ : Type} : Ptr σ → Exec σ
  | Ptr.null => fun w => (Outcome.nullDeref, w)
  | Ptr.addr obj => pure obj

/-- Items laid out in memory, by offset from the first one. -/
abbrev Cells (α : Type) := Int → Option α

/-- Reading `cells[index]`, without any check. -/
def Cells.read {α : Type} (cells : Cells α) (index : Int) : Exec α :=
  match cells index with
  | some v => pure v
  | none => fun w => (Outcome.badRead, w)

/-- The cells of an object made of exactly the items `xs`. -/
def Cells.ofList {α : Type} (xs : List α) : Cells α := fun i =>
  if 0 ≤ i then xs.get? i.toNat else none

/-- An array-like container (`GcArray`): `struct { long length; T items[]; }`. -/
structure RPyArray (α : Type) where
  length : Int
  items : Cells α

/-- Data-model invariant of a container: it has an item at every index from
`0` up to `length`. -/
def RPyArray.HasItems {α : Type} (a : RPyArray α) : Prop :=
  ∀ j : Int, 0 ≤ j → j < a.length → (a.items j).isSome = true

/-- A raw sequence with an item at every index from `0` up to `n`. -/
def Cells.HasItems {α : Type} (cells : Cells α) (n : Int) : Prop :=
  ∀ j : Int, 0 ≤ j → j < n → (cells j).isSome = true

/-! ## Miscellaneous -/

/-- Macro `MIN(a,b)` is `(((a)<(b))?(a):(b))`, here on integer arguments that
are values.  The comparison of two integers of one type is exact. -/
def MIN (a b : Int) : Int := if a < b then a else b

/-! ## Exception-raise macros -/

/-- Modelled from the spec: the collaborator `RPyRaiseSimpleException`, which
the header calls and does not define.  It is an exception-raising entry point
taking an exception-kind identifier and a message string, and it never returns
normally: control is transferred to the exception mechanism of the host
language.  The call is recorded in `World.raised`. -/
def RPyRaiseSimpleException (exc : ExcKind) (msg : String) : Exec Unit := fun w =>
  (Outcome.raised, { w with raised := w.raised ++ [(exc, msg)] })

/-- Macro `FAIL_EXCEPTION(exc, msg)` is `{ RPyRaiseSimpleException(exc, msg); }`.
The collaborator, defined outside of the header, is the parameter `raiser`. -/
def FAIL_EXCEPTION (raiser : ExcKind → String → Exec Unit) (exc : ExcKind)
    (msg : String) : Exec Unit := do
  raiser exc msg

/-- Macro `FAIL_OVF(msg)` is `FAIL_EXCEPTION(PyExc_OverflowError, msg)`. -/
def FAIL_OVF (raiser : ExcKind → String → Exec Unit) (msg : String) : Exec Unit :=
  FAIL_EXCEPTION raiser ExcKind.PyExc_OverflowError msg

/-- Macro `FAIL_VAL(msg)` is `FAIL_EXCEPTION(PyExc_ValueError, msg)`. -/
def FAIL_VAL (raiser : ExcKind → String → Exec Unit) (msg : String) : Exec Unit :=
  FAIL_EXCEPTION raiser ExcKind.PyExc_ValueError msg

/-- Macro `FAIL_ZER(msg)` is `FAIL_EXCEPTION(PyExc_ZeroDivisionError, msg)`. -/
def FAIL_ZER (raiser : ExcKind → String → Exec Unit) (msg : String) : Exec Unit :=
  FAIL_EXCEPTION raiser ExcKind.PyExc_ZeroDivisionError msg

/-! ## Build configuration -/

/-- The preprocessor symbols tested by the header: `true` means defined. -/
structure Config where
  RPY_ASSERT : Bool
  RPY_LL_ASSERT : Bool
  RPY_SANDBOXED : Bool
  deriving DecidableEq, Repr

/-! ## Failure reporters -/

/-- Text written by `RPyAbort`. -/
def RPyAbort_text : String :=
  "Invalid RPython operation (NULL ptr or bad array index)\n"

/-- Function `void RPyAbort(void)`. -/
def RPyAbort : Exec Unit := do
  fprintf_stderr RPyAbort_text
  abort

/-- The format `"PyPy assertion failed at %s:%ld:\nin %s: %s\n"` applied to
its four arguments. -/
def RPyAssertFailed_text (filename : String) (lineno : Int)
    (function : String) (msg : String) : String :=
  "PyPy assertion failed at " ++ filename ++ ":" ++ toString lineno ++ ":\n"
    ++ "in " ++ function ++ ": " ++ msg ++ "\n"

/-- Function `void RPyAssertFailed(const char* filename, long lineno,
const char* function, const char *msg)`. -/
def RPyAssertFailed (filename : String) (lineno : Int)
    (function : String) (msg : String) : Exec Unit := do
  fprintf_stderr (RPyAssertFailed_text filename lineno function msg)
  abort

/-- The macro `RPyAssert(x, msg)` used at the location
`__FILE__`, `__LINE__`, `__FUNCTION__`.  The condition is the expression `x`
of the call site; it is evaluated only in the `RPY_ASSERT` expansion. -/
def RPyAssert (cfg : Config) (file : String) (line : Int) (func : String)
    (x : Exec Bool) (msg : String) : Exec Unit :=
  if cfg.RPY_ASSERT then do
    if !(← x) then RPyAssertFailed file line func msg
  else
    pure ()

/-! ## Accessors, expansion under `RPY_LL_ASSERT || RPY_SANDBOXED` -/

namespace Checked

/-- Macro `RPyCHECK(x)` is `((x)?(void)0:RPyAbort())`. -/
def RPyCHECK (x : Exec Bool) : Exec Unit := do
  if (← x) then pure () else RPyAbort

/-- Macro `RPyField(ptr, name)` is `((RPyCHECK(ptr), (ptr))->name)`. -/
def RPyField {σ α : Type} (ptr : Ptr σ) (name : σ → α) : Exec α := do
  RPyCHECK (pure ptr.toBool)
  let s ← ptr.deref
  pure (name s)

/-- Macro `RPyItem(array, index)` is
`((RPyCHECK((index) >= 0 && (index) < (array)->length), (array))->items[index])`. -/
def RPyItem {α : Type} (array : Ptr (RPyArray α)) (index : Int) : Exec α := do
  RPyCHECK (land (pure (decide (index ≥ 0)))
    (do let a ← array.deref; pure (decide (index < a.length))))
  let a ← array.deref
  a.items.read index

/-- Macro `RPyFxItem(ptr, index, fixedsize)` is
`((RPyCHECK((ptr) && (index) >= 0 && (index) < (fixedsize)), (ptr))[index])`. -/
def RPyFxItem {α : Type} (ptr : Ptr (Cells α)) (index : Int) (fixedsize : Int) :
    Exec α := do
  RPyCHECK (land (land (pure ptr.toBool) (pure (decide (index ≥ 0))))
    (pure (decide (index < fixedsize))))
  let p ← ptr.deref
  p.read index

/-- Macro `RPyNLenItem(array, index)` is
`((RPyCHECK((array) && (index) >= 0), (array))->items[index])`. -/
def RPyNLenItem {α : Type} (array : Ptr (RPyArray α)) (index : Int) : Exec α := do
  RPyCHECK (land (pure array.toBool) (pure (decide (index ≥ 0))))
  let a ← array.deref
  a.items.read index

/-- Macro `RPyBareItem(array, index)` is
`((RPyCHECK((array) && (index) >= 0), (array))[index])`. -/
def RPyBareItem {α : Type} (array : Ptr (Cells α)) (index : Int) : Exec α := do
  RPyCHECK (land (pure array.toBool) (pure (decide (index ≥ 0))))
  let p ← array.deref
  p.read index

end Checked

/-! ## Accessors, expansion of the `#else` branch -/

namespace Unchecked

/-- Macro `RPyField(ptr, name)` is `((ptr)->name)`. -/
def RPyField {σ α : Type} (ptr : Ptr σ) (name : σ → α) : Exec α := do
  let s ← ptr.deref
  pure (name s)

/-- Macro `RPyItem(array, index)` is `((array)->items[index])`. -/
def RPyItem {α : Type} (array : Ptr (RPyArray α)) (index : Int) : Exec α := do
  let a ← array.deref
  a.items.read index

/-- Macro `RPyFxItem(ptr, index, fixedsize)` is `((ptr)[index])`. -/
def RPyFxItem {α : Type} (ptr : Ptr (Cells α)) (index : Int) (_fixedsize : Int) :
    Exec α := do
  let p ← ptr.deref
  p.read index

/-- Macro `RPyNLenItem(array, index)` is `((array)->items[index])`. -/
def RPyNLenItem {α : Type} (array : Ptr (RPyArray α)) (index : Int) : Exec α := do
  let a ← array.deref
  a.items.read index

/-- Macro `RPyBareItem(array, index)` is `((array)[index])`. -/
def RPyBareItem {α : Type} (array : Ptr (Cells α)) (index : Int) : Exec α := do
  let p ← array.deref
  p.read index

end Unchecked

/-! ## Selection of the expansion:
`#if defined(RPY_LL_ASSERT) || defined(RPY_SANDBOXED)` -/

/-- Macro `RPyField` as the preprocessor expands it under `cfg`. -/
def RPyField {σ α : Type} (cfg : Config) (ptr : Ptr σ) (name : σ → α) : Exec α :=
  if cfg.RPY_LL_ASSERT || cfg.RPY_SANDBOXED then Checked.RPyField ptr name
  else Unchecked.RPyField ptr name

/-- Macro `RPyItem` as the preprocessor expands it under `cfg`. -/
def RPyItem {α : Type} (cfg : Config) (array : Ptr (RPyArray α)) (index : Int) :
    Exec α :=
  if cfg.RPY_LL_ASSERT || cfg.RPY_SANDBOXED then Checked.RPyItem array index
  else Unchecked.RPyItem array index

/-- Macro `RPyFxItem` as the preprocessor expands it under `cfg`. -/
def RPyFxItem {α : Type} (cfg : Config) (ptr : Ptr (Cells α)) (index : Int)
    (fixedsize : Int) : Exec α :=
  if cfg.RPY_LL_ASSERT || cfg.RPY_SANDBOXED then Checked.RPyFxItem ptr index fixedsize
  else Unchecked.RPyFxItem ptr index fixedsize

/-- Macro `RPyNLenItem` as the preprocessor expands it under `cfg`. -/
def RPyNLenItem {α : Type} (cfg : Config) (array : Ptr (RPyArray α)) (index : Int) :
    Exec α :=
  if cfg.RPY_LL_ASSERT || cfg.RPY_SANDBOXED then Checked.RPyNLenItem array index
  else Unchecked.RPyNLenItem array index

/-- Macro `RPyBareItem` as the preprocessor expands it under `cfg`. -/
def RPyBareItem {α : Type} (cfg : Config) (array : Ptr (Cells α)) (index : Int) :
    Exec α :=
  if cfg.RPY_LL_ASSERT || cfg.RPY_SANDBOXED then Checked.RPyBareItem array index
  else Unchecked.RPyBareItem array index

/-! ## Concrete inputs -/

/-- A container of three items, `length = 3`. -/
def arr3 : RPyArray Int := { length := 3, items := Cells.ofList [10, 20, 30] }

/-- A process that has written nothing and raised nothing. -/
def World.init : World := { stderr := "", raised := [] }

/-- A build configuration with only `RPY_SANDBOXED` defined. -/
def sandboxOnly : Config :=
  { RPY_ASSERT := false, RPY_LL_ASSERT := false, RPY_SANDBOXED := true }

/-- A raw sequence of the three items 10, 20, 30. -/
def raw3 : Cells Int := Cells.ofList [10, 20, 30]

/-- A container whose `length` field is 2 and that has three items in memory. -/
def arrOver : RPyArray Int := { length := 2, items := Cells.ofList [10, 20, 30] }

/-- A structure with two fields, as a target of `RPyField`. -/
structure Pair where
  first : Int
  second : Int
  deriving DecidableEq, Repr

/-! ## Basic facts about the process model -/

@[simp] theorem Exec.pure_apply {α : Type} (v : α) (w : World) :
    (pure v : Exec α) w = (Outcome.value v, w) := rfl

theorem Exec.bind_apply {α β : Type} (m : Exec α) (f : α → Exec β) (w : World) :
    (m >>= f) w = Exec.seq m f w := rfl

theorem RPyAbort_apply (w : World) :
    RPyAbort w = (Outcome.aborted, { w with stderr := w.stderr ++ RPyAbort_text }) := rfl

theorem Cells.read_some {α : Type} (cells : Cells α) (i : Int) (v : α) (w : World)
    (h : cells i = some v) : cells.read i w = (Outcome.value v, w) := by
  simp [Cells.read, h]

theorem Cells.read_not_aborted {α : Type} (cells : Cells α) (i : Int) (w : World) :
    (cells.read i w).1 ≠ Outcome.aborted := by
  unfold Cells.read
  cases cells i <;> simp

theorem Cells.read_world {α : Type} (cells : Cells α) (i : Int) (w : World) :
    (cells.read i w).2 = w := by
  unfold Cells.read
  cases cells i <;> simp

theorem Cells.read_value_iff {α : Type} (cells : Cells α) (i : Int) (w : World) (v : α) :
    (cells.read i w).1 = Outcome.value v ↔ cells i = some v := by
  unfold Cells.read
  cases cells i <;> simp

theorem RPyField_checked_apply {σ α : Type} (ptr : Ptr σ) (name : σ → α) (w : World) :
    Checked.RPyField ptr name w =
      match ptr with
      | Ptr.null => (Outcome.aborted, (RPyAbort w).2)
      | Ptr.addr s => (Outcome.value (name s), w) := by
  cases ptr <;>
    simp [Checked.RPyField, Checked.RPyCHECK, Ptr.deref, Ptr.toBool, Exec.bind_apply, Exec.seq,
      RPyAbort_apply]

theorem RPyItem_checked_addr {α : Type} (a : RPyArray α) (i : Int) (w : World) :
    Checked.RPyItem (Ptr.addr a) i w =
      if 0 ≤ i ∧ i < a.length then a.items.read i w else (Outcome.aborted, (RPyAbort w).2) := by
  by_cases h0 : 0 ≤ i <;> by_cases h1 : i < a.length <;>
    simp [Checked.RPyItem, Checked.RPyCHECK, land, Ptr.deref, Exec.bind_apply, Exec.seq, h0, h1,
      RPyAbort_apply]

theorem RPyItem_checked_null {α : Type} (i : Int) (w : World) :
    Checked.RPyItem (Ptr.null : Ptr (RPyArray α)) i w =
      if 0 ≤ i then (Outcome.nullDeref, w) else (Outcome.aborted, (RPyAbort w).2) := by
  by_cases h0 : 0 ≤ i <;>
    simp [Checked.RPyItem, Checked.RPyCHECK, land, Ptr.deref, Exec.bind_apply, Exec.seq, h0,
      RPyAbort_apply]

theorem RPyFxItem_checked_apply {α : Type} (ptr : Ptr (Cells α)) (i n : Int) (w : World) :
    Checked.RPyFxItem ptr i n w =
      match ptr with
      | Ptr.null => (Outcome.aborted, (RPyAbort w).2)
      | Ptr.addr p =>
        if 0 ≤ i ∧ i < n then p.read i w else (Outcome.aborted, (RPyAbort w).2) := by
  cases ptr <;> by_cases h0 : 0 ≤ i <;> by_cases h1 : i < n <;>
    simp [Checked.RPyFxItem, Checked.RPyCHECK, land, Ptr.deref, Ptr.toBool, Exec.bind_apply,
      Exec.seq, h0, h1, RPyAbort_apply]

theorem RPyNLenItem_checked_apply {α : Type} (array : Ptr (RPyArray α)) (i : Int) (w : World) :
    Checked.RPyNLenItem array i w =
      match array with
      | Ptr.null => (Outcome.aborted, (RPyAbort w).2)
      | Ptr.addr a =>
        if 0 ≤ i then a.items.read i w else (Outcome.aborted, (RPyAbort w).2) := by
  cases array <;> by_cases h0 : 0 ≤ i <;>
    simp [Checked.RPyNLenItem, Checked.RPyCHECK, land, Ptr.deref, Ptr.toBool, Exec.bind_apply,
      Exec.seq, h0, RPyAbort_apply]

theorem RPyBareItem_checked_apply {α : Type} (array : Ptr (Cells α)) (i : Int) (w : World) :
    Checked.RPyBareItem array i w =
      match array with
      | Ptr.null => (Outcome.aborted, (RPyAbort w).2)
      | Ptr.addr p =>
        if 0 ≤ i then p.read i w else (Outcome.aborted, (RPyAbort w).2) := by
  cases array <;> by_cases h0 : 0 ≤ i <;>
    simp [Checked.RPyBareItem, Checked.RPyCHECK, land, Ptr.deref, Ptr.toBool, Exec.bind_apply,
      Exec.seq, h0, RPyAbort_apply]

theorem RPyField_unchecked_apply {σ α : Type} (ptr : Ptr σ) (name : σ → α) (w : World) :
    Unchecked.RPyField ptr name w =
      match ptr with
      | Ptr.null => (Outcome.nullDeref, w)
      | Ptr.addr s => (Outcome.value (name s), w) := by
  cases ptr <;> simp [Unchecked.RPyField, Ptr.deref, Exec.bind_apply, Exec.seq]

theorem RPyItem_unchecked_apply {α : Type} (array : Ptr (RPyArray α)) (i : Int) (w : World) :
    Unchecked.RPyItem array i w =
      match array with
      | Ptr.null => (Outcome.nullDeref, w)
      | Ptr.addr a => a.items.read i w := by
  cases array <;> simp [Unchecked.RPyItem, Ptr.deref, Exec.bind_apply, Exec.seq]

theorem arr3_hasItems : arr3.HasItems := by
  intro j h0 h3
  simp only [arr3] at h3
  interval_cases j <;> rfl

/-! ## Checked accessors -/

/-- C1: for every non-null container `C` holding its `length` items and every
index `i`, checked `RPyItem(C, i)` yields the item `C.items[i]` when
`0 <= i < length`, ends in the fatal abort of `RPyAbort` when `i` is outside
that range, and so yields a value if and only if `0 <= i < length`. -/
theorem C1_RPyItem_checked_bounds {α : Type} (C : RPyArray α) (hC : C.HasItems)
    (i : Int) (w : World) :
    (0 ≤ i ∧ i < C.length →
      ∃ v, C.items i = some v ∧ Checked.RPyItem (Ptr.addr C) i w = (Outcome.value v, w)) ∧
    (¬ (0 ≤ i ∧ i < C.length) →
      Checked.RPyItem (Ptr.addr C) i w = (Outcome.aborted, (RPyAbort w).2)) ∧
    ((∃ v, (Checked.RPyItem (Ptr.addr C) i w).1 = Outcome.value v) ↔
      (0 ≤ i ∧ i < C.length)) := by
  have hin : 0 ≤ i ∧ i < C.length →
      ∃ v, C.items i = some v ∧
        Checked.RPyItem (Ptr.addr C) i w = (Outcome.value v, w) := by
    intro h
    have hsome := hC i h.1 h.2
    obtain ⟨v, hv⟩ := Option.isSome_iff_exists.mp hsome
    exact ⟨v, hv, by rw [RPyItem_checked_addr, if_pos h, Cells.read_some _ _ _ _ hv]⟩
  have hout : ¬ (0 ≤ i ∧ i < C.length) →
      Checked.RPyItem (Ptr.addr C) i w = (Outcome.aborted, (RPyAbort w).2) := by
    intro h
    rw [RPyItem_checked_addr, if_neg h]
  refine ⟨hin, hout, ?_, ?_⟩
  · rintro ⟨v, hv⟩
    by_contra h
    rw [hout h] at hv
    cases hv
  · intro h
    obtain ⟨v, _, hrun⟩ := hin h
    exact ⟨v, by rw [hrun]⟩

/-- C1 at the container `arr3` (items 10, 20, 30): index 1 yields 20, index 5
and index -1 abort. -/
theorem C1_RPyItem_checked_bounds_witness :
    arr3.HasItems ∧
    Checked.RPyItem (Ptr.addr arr3) 1 World.init = (Outcome.value 20, World.init) ∧
    Checked.RPyItem (Ptr.addr arr3) 5 World.init
      = (Outcome.aborted, (RPyAbort World.init).2) ∧
    Checked.RPyItem (Ptr.addr arr3) (-1) World.init
      = (Outcome.aborted, (RPyAbort World.init).2) := by
  refine ⟨arr3_hasItems, ?_, ?_, ?_⟩
  · obtain ⟨v, hv, hrun⟩ :=
      (C1_RPyItem_checked_bounds arr3 arr3_hasItems 1 World.init).1 (by decide)
    have h20 : v = 20 := (Option.some.inj hv).symm
    rw [hrun, h20]
  · exact (C1_RPyItem_checked_bounds arr3 arr3_hasItems 5 World.init).2.1 (by decide)
  · exact (C1_RPyItem_checked_bounds arr3 arr3_hasItems (-1) World.init).2.1 (by decide)

theorem raw3_hasItems : raw3.HasItems 3 := by
  intro j h0 h3
  interval_cases j <;> rfl

/-- C2: for every base reference (possibly null) to a raw sequence of at least
`n` items, checked `RPyFxItem(base, i, n)` yields `base[i]` when `base` is
non-null and `0 <= i < n`, and otherwise ends in the fatal abort of `RPyAbort`;
it yields a value if and only if `base` is non-null and `0 <= i < n`; it aborts
for every `i` when `n <= 0`; and of the data only the cell `base[i]` matters to
the result (the raw sequence has no length field to consult). -/
theorem C2_RPyFxItem_checked {α : Type} (base : Ptr (Cells α)) (i n : Int) (w : World)
    (hbase : ∀ p, base = Ptr.addr p → p.HasItems n) :
    (∀ p, base = Ptr.addr p → 0 ≤ i ∧ i < n →
      ∃ v, p i = some v ∧ Checked.RPyFxItem base i n w = (Outcome.value v, w)) ∧
    (¬ (base ≠ Ptr.null ∧ 0 ≤ i ∧ i < n) →
      Checked.RPyFxItem base i n w = (Outcome.aborted, (RPyAbort w).2)) ∧
    ((∃ v, (Checked.RPyFxItem base i n w).1 = Outcome.value v) ↔
      (base ≠ Ptr.null ∧ 0 ≤ i ∧ i < n)) ∧
    (n ≤ 0 → Checked.RPyFxItem base i n w = (Outcome.aborted, (RPyAbort w).2)) ∧
    (∀ p q : Cells α, p i = q i →
      Checked.RPyFxItem (Ptr.addr p) i n w = Checked.RPyFxItem (Ptr.addr q) i n w) := by
  have hin : ∀ p, base = Ptr.addr p → 0 ≤ i ∧ i < n →
      ∃ v, p i = some v ∧ Checked.RPyFxItem base i n w = (Outcome.value v, w) := by
    intro p hp h
    obtain ⟨v, hv⟩ := Option.isSome_iff_exists.mp (hbase p hp i h.1 h.2)
    refine ⟨v, hv, ?_⟩
    rw [RPyFxItem_checked_apply, hp]
    simp only [if_pos h]
    exact Cells.read_some p i v w hv
  have hout : ¬ (base ≠ Ptr.null ∧ 0 ≤ i ∧ i < n) →
      Checked.RPyFxItem base i n w = (Outcome.aborted, (RPyAbort w).2) := by
    intro h
    rw [RPyFxItem_checked_apply]
    cases base with
    | null => rfl
    | addr p =>
      have h2 : ¬ (0 ≤ i ∧ i < n) := fun hc => h ⟨by simp, hc⟩
      simp only [if_neg h2]
  refine ⟨hin, hout, ⟨?_, ?_⟩, ?_, ?_⟩
  · rintro ⟨v, hv⟩
    by_contra h
    rw [hout h] at hv
    cases hv
  · rintro ⟨hnn, h⟩
    cases base with
    | null => exact absurd rfl hnn
    | addr p =>
      obtain ⟨v, _, hrun⟩ := hin p rfl h
      exact ⟨v, by rw [hrun]⟩
  · intro hn
    exact hout (fun h => by omega)
  · intro p q hpq
    rw [RPyFxItem_checked_apply, RPyFxItem_checked_apply]
    simp only [Cells.read, hpq]

/-- C2 at the raw sequence `raw3` with fixed size 3: index 2 yields 30, index 3
aborts, and a null base aborts. -/
theorem C2_RPyFxItem_checked_witness :
    Checked.RPyFxItem (Ptr.addr raw3) 2 3 World.init = (Outcome.value 30, World.init) ∧
    Checked.RPyFxItem (Ptr.addr raw3) 3 3 World.init
      = (Outcome.aborted, (RPyAbort World.init).2) ∧
    Checked.RPyFxItem (Ptr.null : Ptr (Cells Int)) 0 3 World.init
      = (Outcome.aborted, (RPyAbort World.init).2) := by
  have hraw : ∀ p, Ptr.addr raw3 = Ptr.addr p → p.HasItems 3 := by
    intro p hp
    cases hp
    exact raw3_hasItems
  refine ⟨?_, ?_, ?_⟩
  · obtain ⟨v, hv, hrun⟩ :=
      (C2_RPyFxItem_checked (Ptr.addr raw3) 2 3 World.init hraw).1 raw3 rfl (by decide)
    have h30 : v = 30 := (Option.some.inj hv).symm
    rw [hrun, h30]
  · exact (C2_RPyFxItem_checked (Ptr.addr raw3) 3 3 World.init hraw).2.1
      (fun h => absurd h.2.2 (by decide))
  · exact (C2_RPyFxItem_checked (Ptr.null : Ptr (Cells Int)) 0 3 World.init
      (fun p hp => by cases hp)).2.1 (by simp)

/-- C3: for every container reference `C` (possibly null) and every index `i`,
checked `RPyNLenItem(C, i)` ends in the fatal abort if and only if `C` is null
or `i < 0`; for non-null `C` and `i >= 0` it is the plain read of
`C->items[i]`, whatever the `length` of the container, so it never aborts
there, while checked `RPyItem` on the same container aborts for every
`i >= length`. -/
theorem C3_RPyNLenItem_checked {α : Type} (C : Ptr (RPyArray α)) (i : Int) (w : World) :
    ((Checked.RPyNLenItem C i w).1 ≠ Outcome.aborted ↔ (C ≠ Ptr.null ∧ 0 ≤ i)) ∧
    (¬ (C ≠ Ptr.null ∧ 0 ≤ i) →
      Checked.RPyNLenItem C i w = (Outcome.aborted, (RPyAbort w).2)) ∧
    (∀ a, C = Ptr.addr a → 0 ≤ i → Checked.RPyNLenItem C i w = a.items.read i w) ∧
    (∀ (a : RPyArray α) (len : Int),
      Checked.RPyNLenItem (Ptr.addr { a with length := len }) i w
        = Checked.RPyNLenItem (Ptr.addr a) i w) ∧
    (∀ a, C = Ptr.addr a → 0 ≤ i → a.length ≤ i →
      (Checked.RPyNLenItem C i w).1 ≠ Outcome.aborted) ∧
    (∀ a, C = Ptr.addr a → a.length ≤ i →
      Checked.RPyItem C i w = (Outcome.aborted, (RPyAbort w).2)) := by
  have hout : ¬ (C ≠ Ptr.null ∧ 0 ≤ i) →
      Checked.RPyNLenItem C i w = (Outcome.aborted, (RPyAbort w).2) := by
    intro h
    rw [RPyNLenItem_checked_apply]
    cases C with
    | null => rfl
    | addr a =>
      have h2 : ¬ 0 ≤ i := fun hc => h ⟨by simp, hc⟩
      simp only [if_neg h2]
  have hin : ∀ a, C = Ptr.addr a → 0 ≤ i →
      Checked.RPyNLenItem C i w = a.items.read i w := by
    intro a ha h
    rw [RPyNLenItem_checked_apply, ha]
    simp only [if_pos h]
  have hiff : (Checked.RPyNLenItem C i w).1 ≠ Outcome.aborted ↔ (C ≠ Ptr.null ∧ 0 ≤ i) := by
    constructor
    · intro hne
      by_contra h
      exact hne (by rw [hout h])
    · rintro ⟨hnn, h⟩
      cases C with
      | null => exact absurd rfl hnn
      | addr a =>
        rw [hin a rfl h]
        exact Cells.read_not_aborted a.items i w
  refine ⟨hiff, hout, hin, ?_, ?_, ?_⟩
  · intro a len
    rw [RPyNLenItem_checked_apply, RPyNLenItem_checked_apply]
  · intro a ha h _
    exact hiff.mpr ⟨by simp [ha], h⟩
  · intro a ha hlen
    rw [ha, RPyItem_checked_addr, if_neg (fun h => by omega)]

/-- C4: for every reference `R` (possibly null) and every field `f`, checked
`RPyField(R, f)` yields the field `f` of the object when `R` is non-null and
ends in the fatal abort of `RPyAbort` when `R` is null, so it yields a value if
and only if `R` is non-null; unchecked `RPyField` is the raw dereference: it
never ends in the abort, writes nothing, and on a null `R` it is the null
dereference. -/
theorem C4_RPyField {σ α : Type} (R : Ptr σ) (f : σ → α) (w : World) :
    (∀ r, R = Ptr.addr r → Checked.RPyField R f w = (Outcome.value (f r), w)) ∧
    (R = Ptr.null → Checked.RPyField R f w = (Outcome.aborted, (RPyAbort w).2)) ∧
    ((∃ v, (Checked.RPyField R f w).1 = Outcome.value v) ↔ R ≠ Ptr.null) ∧
    (Unchecked.RPyField R f w = (R.deref >>= fun r => pure (f r)) w) ∧
    (Unchecked.RPyField R f w).1 ≠ Outcome.aborted ∧
    (Unchecked.RPyField R f w).2 = w ∧
    (R = Ptr.null → Unchecked.RPyField R f w = (Outcome.nullDeref, w)) ∧
    (∀ r, R = Ptr.addr r → Unchecked.RPyField R f w = (Outcome.value (f r), w)) := by
  cases R with
  | null =>
    refine ⟨fun r hr => (by cases hr), fun _ => (by rw [RPyField_checked_apply]), ?_, rfl,
      ?_, ?_, fun _ => (by rw [RPyField_unchecked_apply]), fun r hr => (by cases hr)⟩
    · rw [RPyField_checked_apply]
      simp
    · rw [RPyField_unchecked_apply]
      simp
    · rw [RPyField_unchecked_apply]
  | addr r0 =>
    refine ⟨?_, fun h => (by cases h), ?_, rfl, ?_, ?_, fun h => (by cases h), ?_⟩
    · intro r hr
      cases hr
      rw [RPyField_checked_apply]
    · rw [RPyField_checked_apply]
      simp
    · rw [RPyField_unchecked_apply]
      simp
    · rw [RPyField_unchecked_apply]
    · intro r hr
      cases hr
      rw [RPyField_unchecked_apply]

/-- C5: for every raw sequence reference `A` (possibly null) and every index
`i`, checked `RPyBareItem(A, i)` ends in the fatal abort of `RPyAbort` if and
only if `A` is null or `i < 0`; otherwise it is the read of `A[i]`, with no
upper bound on `i`, and yields the item found there. -/
theorem C5_RPyBareItem_checked {α : Type} (A : Ptr (Cells α)) (i : Int) (w : World) :
    ((Checked.RPyBareItem A i w).1 = Outcome.aborted ↔ (A = Ptr.null ∨ i < 0)) ∧
    (A = Ptr.null ∨ i < 0 →
      Checked.RPyBareItem A i w = (Outcome.aborted, (RPyAbort w).2)) ∧
    (∀ p, A = Ptr.addr p → 0 ≤ i → Checked.RPyBareItem A i w = p.read i w) ∧
    (∀ p v, A = Ptr.addr p → 0 ≤ i → p i = some v →
      Checked.RPyBareItem A i w = (Outcome.value v, w)) := by
  have hout : A = Ptr.null ∨ i < 0 →
      Checked.RPyBareItem A i w = (Outcome.aborted, (RPyAbort w).2) := by
    intro h
    rw [RPyBareItem_checked_apply]
    cases A with
    | null => rfl
    | addr p =>
      have h2 : ¬ 0 ≤ i := by
        rcases h with h | h
        · cases h
        · omega
      simp only [if_neg h2]
  have hin : ∀ p, A = Ptr.addr p → 0 ≤ i → Checked.RPyBareItem A i w = p.read i w := by
    intro p hp h
    rw [RPyBareItem_checked_apply, hp]
    simp only [if_pos h]
  refine ⟨⟨?_, fun h => (by rw [hout h])⟩, hout, hin, ?_⟩
  · intro hab
    cases A with
    | null => exact Or.inl rfl
    | addr p =>
      by_cases h : 0 ≤ i
      · rw [hin p rfl h] at hab
        exact absurd hab (Cells.read_not_aborted p i w)
      · exact Or.inr (by omega)
  · intro p v hp h hv
    rw [hin p hp h]
    exact Cells.read_some p i v w hv

/-- C3 on concrete containers: at index 5 of `arr3` the checked `RPyNLenItem`
does not abort while checked `RPyItem` does; at index 2 of `arrOver` the
former yields the item and the latter aborts. -/
theorem C3_RPyNLenItem_checked_witness :
    (Checked.RPyNLenItem (Ptr.addr arr3) 5 World.init).1 ≠ Outcome.aborted ∧
    Checked.RPyItem (Ptr.addr arr3) 5 World.init
      = (Outcome.aborted, (RPyAbort World.init).2) ∧
    Checked.RPyNLenItem (Ptr.addr arrOver) 2 World.init = (Outcome.value 30, World.init) ∧
    Checked.RPyItem (Ptr.addr arrOver) 2 World.init
      = (Outcome.aborted, (RPyAbort World.init).2) :=
  ⟨(C3_RPyNLenItem_checked (Ptr.addr arr3) 5 World.init).2.2.2.2.1 arr3 rfl
      (by decide) (by decide),
    (C3_RPyNLenItem_checked (Ptr.addr arr3) 5 World.init).2.2.2.2.2 arr3 rfl (by decide),
    ((C3_RPyNLenItem_checked (Ptr.addr arrOver) 2 World.init).2.2.1 arrOver rfl
      (by decide)).trans rfl,
    (C3_RPyNLenItem_checked (Ptr.addr arrOver) 2 World.init).2.2.2.2.2 arrOver rfl
      (by decide)⟩

/-- C4 on a concrete structure and on the null reference. -/
theorem C4_RPyField_witness :
    Checked.RPyField (Ptr.addr (Pair.mk 7 9)) Pair.second World.init
      = (Outcome.value 9, World.init) ∧
    Checked.RPyField (Ptr.null : Ptr Pair) Pair.second World.init
      = (Outcome.aborted, (RPyAbort World.init).2) ∧
    Unchecked.RPyField (Ptr.null : Ptr Pair) Pair.second World.init
      = (Outcome.nullDeref, World.init) :=
  ⟨(C4_RPyField (Ptr.addr (Pair.mk 7 9)) Pair.second World.init).1 _ rfl,
    (C4_RPyField (Ptr.null : Ptr Pair) Pair.second World.init).2.1 rfl,
    (C4_RPyField (Ptr.null : Ptr Pair) Pair.second World.init).2.2.2.2.2.2.1 rfl⟩

/-- C5 on the raw sequence `raw3`: index 1 yields 20, index 7 is read without
abort, index -1 and the null reference abort. -/
theorem C5_RPyBareItem_checked_witness :
    Checked.RPyBareItem (Ptr.addr raw3) 1 World.init = (Outcome.value 20, World.init) ∧
    Checked.RPyBareItem (Ptr.addr raw3) 7 World.init = (Outcome.badRead, World.init) ∧
    Checked.RPyBareItem (Ptr.addr raw3) (-1) World.init
      = (Outcome.aborted, (RPyAbort World.init).2) ∧
    Checked.RPyBareItem (Ptr.null : Ptr (Cells Int)) 1 World.init
      = (Outcome.aborted, (RPyAbort World.init).2) :=
  ⟨(C5_RPyBareItem_checked (Ptr.addr raw3) 1 World.init).2.2.2 raw3 20 rfl (by decide) rfl,
    ((C5_RPyBareItem_checked (Ptr.addr raw3) 7 World.init).2.2.1 raw3 rfl (by decide)).trans
      rfl,
    (C5_RPyBareItem_checked (Ptr.addr raw3) (-1) World.init).2.1 (Or.inr (by decide)),
    (C5_RPyBareItem_checked (Ptr.null : Ptr (Cells Int)) 1 World.init).2.1 (Or.inl rfl)⟩

/-! ## Selection of the build mode -/

theorem RPyField_ne : @Unchecked.RPyField Pair Int ≠ @Checked.RPyField Pair Int := by
  intro h
  have h1 := congrFun (congrFun (congrFun h Ptr.null) Pair.first) World.init
  rw [RPyField_unchecked_apply, RPyField_checked_apply] at h1
  simp at h1

theorem RPyItem_ne : @Unchecked.RPyItem Int ≠ @Checked.RPyItem Int := by
  intro h
  have h1 := congrFun (congrFun (congrFun h (Ptr.addr arr3)) 5) World.init
  rw [RPyItem_unchecked_apply, RPyItem_checked_addr] at h1
  have h2 := congrArg Prod.fst h1
  rw [if_neg (by decide)] at h2
  exact Cells.read_not_aborted _ _ _ h2

theorem RPyFxItem_ne : @Unchecked.RPyFxItem Int ≠ @Checked.RPyFxItem Int := by
  intro h
  have h1 := congrFun (congrFun (congrFun (congrFun h Ptr.null) 0) 3) World.init
  rw [RPyFxItem_checked_apply] at h1
  have h2 := congrArg Prod.fst h1
  simp [Unchecked.RPyFxItem, Ptr.deref, Exec.bind_apply, Exec.seq] at h2

theorem RPyNLenItem_ne : @Unchecked.RPyNLenItem Int ≠ @Checked.RPyNLenItem Int := by
  intro h
  have h1 := congrFun (congrFun (congrFun h Ptr.null) 0) World.init
  rw [RPyNLenItem_checked_apply] at h1
  have h2 := congrArg Prod.fst h1
  simp [Unchecked.RPyNLenItem, Ptr.deref, Exec.bind_apply, Exec.seq] at h2

theorem RPyBareItem_ne : @Unchecked.RPyBareItem Int ≠ @Checked.RPyBareItem Int := by
  intro h
  have h1 := congrFun (congrFun (congrFun h Ptr.null) 0) World.init
  rw [RPyBareItem_checked_apply] at h1
  have h2 := congrArg Prod.fst h1
  simp [Unchecked.RPyBareItem, Ptr.deref, Exec.bind_apply, Exec.seq] at h2

/-- C6: under every build configuration, each of the five accessors is its
checked expansion when `RPY_LL_ASSERT` or `RPY_SANDBOXED` is defined and its
unchecked expansion when neither is; the two expansions differ, so an accessor
is the checked one if and only if one of the two symbols is defined; the choice
does not depend on `RPY_ASSERT`; and with `RPY_SANDBOXED` defined an
out-of-bounds `RPyItem` ends in the fatal abort whatever `RPY_LL_ASSERT` is. -/
theorem C6_build_mode (cfg : Config) :
    ((cfg.RPY_LL_ASSERT = true ∨ cfg.RPY_SANDBOXED = true) →
      (∀ σ α : Type, @RPyField σ α cfg = Checked.RPyField) ∧
      (∀ α : Type, @RPyItem α cfg = Checked.RPyItem) ∧
      (∀ α : Type, @RPyFxItem α cfg = Checked.RPyFxItem) ∧
      (∀ α : Type, @RPyNLenItem α cfg = Checked.RPyNLenItem) ∧
      (∀ α : Type, @RPyBareItem α cfg = Checked.RPyBareItem)) ∧
    ((cfg.RPY_LL_ASSERT = false ∧ cfg.RPY_SANDBOXED = false) →
      (∀ σ α : Type, @RPyField σ α cfg = Unchecked.RPyField) ∧
      (∀ α : Type, @RPyItem α cfg = Unchecked.RPyItem) ∧
      (∀ α : Type, @RPyFxItem α cfg = Unchecked.RPyFxItem) ∧
      (∀ α : Type, @RPyNLenItem α cfg = Unchecked.RPyNLenItem) ∧
      (∀ α : Type, @RPyBareItem α cfg = Unchecked.RPyBareItem)) ∧
    ((@RPyField Pair Int cfg = Checked.RPyField ↔
        (cfg.RPY_LL_ASSERT = true ∨ cfg.RPY_SANDBOXED = true)) ∧
      (@RPyItem Int cfg = Checked.RPyItem ↔
        (cfg.RPY_LL_ASSERT = true ∨ cfg.RPY_SANDBOXED = true)) ∧
      (@RPyFxItem Int cfg = Checked.RPyFxItem ↔
        (cfg.RPY_LL_ASSERT = true ∨ cfg.RPY_SANDBOXED = true)) ∧
      (@RPyNLenItem Int cfg = Checked.RPyNLenItem ↔
        (cfg.RPY_LL_ASSERT = true ∨ cfg.RPY_SANDBOXED = true)) ∧
      (@RPyBareItem Int cfg = Checked.RPyBareItem ↔
        (cfg.RPY_LL_ASSERT = true ∨ cfg.RPY_SANDBOXED = true))) ∧
    (∀ b : Bool,
      (∀ σ α : Type, @RPyField σ α { cfg with RPY_ASSERT := b } = RPyField cfg) ∧
      (∀ α : Type, @RPyItem α { cfg with RPY_ASSERT := b } = RPyItem cfg) ∧
      (∀ α : Type, @RPyFxItem α { cfg with RPY_ASSERT := b } = RPyFxItem cfg) ∧
      (∀ α : Type, @RPyNLenItem α { cfg with RPY_ASSERT := b } = RPyNLenItem cfg) ∧
      (∀ α : Type, @RPyBareItem α { cfg with RPY_ASSERT := b } = RPyBareItem cfg)) ∧
    (cfg.RPY_SANDBOXED = true →
      ∀ (α : Type) (a : RPyArray α) (i : Int) (w : World), ¬ (0 ≤ i ∧ i < a.length) →
        RPyItem cfg (Ptr.addr a) i w = (Outcome.aborted, (RPyAbort w).2)) := by
  obtain ⟨as, ll, sb⟩ := cfg
  refine ⟨?_, ?_, ?_, ?_, ?_⟩
  · intro h
    have hc : (ll || sb) = true := by simpa using h
    refine ⟨?_, ?_, ?_, ?_, ?_⟩ <;> intros <;> funext <;>
      simp [RPyField, RPyItem, RPyFxItem, RPyNLenItem, RPyBareItem, hc]
  · rintro ⟨h1, h2⟩
    simp only at h1 h2
    subst h1 h2
    refine ⟨?_, ?_, ?_, ?_, ?_⟩ <;> intros <;> rfl
  · cases ll <;> cases sb
    · have e1 : @RPyField Pair Int ⟨as, false, false⟩ = Unchecked.RPyField := rfl
      have e2 : @RPyItem Int ⟨as, false, false⟩ = Unchecked.RPyItem := rfl
      have e3 : @RPyFxItem Int ⟨as, false, false⟩ = Unchecked.RPyFxItem := rfl
      have e4 : @RPyNLenItem Int ⟨as, false, false⟩ = Unchecked.RPyNLenItem := rfl
      have e5 : @RPyBareItem Int ⟨as, false, false⟩ = Unchecked.RPyBareItem := rfl
      rw [e1, e2, e3, e4, e5]
      simp [RPyField_ne, RPyItem_ne, RPyFxItem_ne, RPyNLenItem_ne, RPyBareItem_ne]
    all_goals
      refine ⟨⟨fun _ => ?_, fun _ => rfl⟩, ⟨fun _ => ?_, fun _ => rfl⟩,
        ⟨fun _ => ?_, fun _ => rfl⟩, ⟨fun _ => ?_, fun _ => rfl⟩,
        ⟨fun _ => ?_, fun _ => rfl⟩⟩ <;> simp
  · intro b
    refine ⟨?_, ?_, ?_, ?_, ?_⟩ <;> intros <;> rfl
  · intro h α a i w hi
    simp only at h
    subst h
    have e : @RPyItem α ⟨as, ll, true⟩ = Checked.RPyItem := by
      funext array index
      simp [RPyItem]
    rw [e, RPyItem_checked_addr, if_neg hi]

/-- C6 on concrete builds: with only `RPY_SANDBOXED` defined, index 5 of
`arr3` aborts; with only `RPY_ASSERT` defined, the same access is the
unchecked read. -/
theorem C6_build_mode_witness :
    RPyItem sandboxOnly (Ptr.addr arr3) 5 World.init
      = (Outcome.aborted, (RPyAbort World.init).2) ∧
    RPyItem { RPY_ASSERT := true, RPY_LL_ASSERT := false, RPY_SANDBOXED := false }
      (Ptr.addr arr3) 5 World.init = Unchecked.RPyItem (Ptr.addr arr3) 5 World.init :=
  ⟨(C6_build_mode sandboxOnly).2.2.2.2 rfl Int arr3 5 World.init (by decide),
    congrFun (congrFun (congrFun
      (((C6_build_mode
        { RPY_ASSERT := true, RPY_LL_ASSERT := false, RPY_SANDBOXED := false }).2.1
          ⟨rfl, rfl⟩).2.1 Int) (Ptr.addr arr3)) 5) World.init⟩

/-! ## Failure reporters -/

/-- C7: with `RPY_ASSERT` undefined, `RPyAssert(x, msg)` does nothing, for
every condition `x` (which is not even evaluated, so also when it is false),
every message and every call site: the process goes on in the same state,
nothing is written, whatever `RPY_LL_ASSERT` and `RPY_SANDBOXED` are. -/
theorem C7_RPyAssert_disabled (cfg : Config) (h : cfg.RPY_ASSERT = false)
    (file : String) (line : Int) (func : String) (x : Exec Bool) (msg : String)
    (w : World) :
    RPyAssert cfg file line func x msg w = (Outcome.value (), w) := by
  simp [RPyAssert, h]

/-- C7 with a false condition, under both `RPY_LL_ASSERT` and `RPY_SANDBOXED`. -/
theorem C7_RPyAssert_disabled_witness :
    RPyAssert { RPY_ASSERT := false, RPY_LL_ASSERT := true, RPY_SANDBOXED := true }
      "rlist.c" 42 "ll_getitem" (pure false) "index out of bounds" World.init
      = (Outcome.value (), World.init) :=
  C7_RPyAssert_disabled _ rfl _ _ _ _ _ _

/-- C8: with `RPY_ASSERT` defined, when the condition `x` evaluates to the
truth value `b`, `RPyAssert(x, msg)` terminates the process if and only if `b`
is false; it has then appended to the standard error stream exactly
`PyPy assertion failed at <file>:<line>:\nin <function>: <msg>\n`, built from
the call site; when `b` is true nothing is written and the process goes on;
and `RPyAssertFailed` terminates the process for all arguments. -/
theorem C8_RPyAssert_enabled (cfg : Config) (h : cfg.RPY_ASSERT = true)
    (file : String) (line : Int) (func : String) (x : Exec Bool) (msg : String)
    (w w1 : World) (b : Bool) (hx : x w = (Outcome.value b, w1)) :
    ((RPyAssert cfg file line func x msg w).1 = Outcome.aborted ↔ b = false) ∧
    (b = false →
      RPyAssert cfg file line func x msg w =
        (Outcome.aborted,
          { w1 with stderr := w1.stderr ++
              ("PyPy assertion failed at " ++ file ++ ":" ++ toString line ++ ":\n" ++
                "in " ++ func ++ ": " ++ msg ++ "\n") })) ∧
    (b = true → RPyAssert cfg file line func x msg w = (Outcome.value (), w1)) ∧
    (∀ (filename : String) (lineno : Int) (function : String) (m : String) (w0 : World),
      RPyAssertFailed filename lineno function m w0 =
        (Outcome.aborted,
          { w0 with stderr := w0.stderr ++
              ("PyPy assertion failed at " ++ filename ++ ":" ++ toString lineno ++ ":\n" ++
                "in " ++ function ++ ": " ++ m ++ "\n") })) := by
  cases b <;>
    simp [RPyAssert, h, Exec.bind_apply, Exec.seq, hx, RPyAssertFailed, RPyAssertFailed_text,
      fprintf_stderr, abort]

/-- C8 at a concrete call site: a false condition at `rlist.c:42` in
`ll_getitem` aborts after writing the two-line diagnostic. -/
theorem C8_RPyAssert_enabled_witness :
    RPyAssert { RPY_ASSERT := true, RPY_LL_ASSERT := false, RPY_SANDBOXED := false }
      "rlist.c" 42 "ll_getitem" (pure false) "index out of bounds" World.init
      = (Outcome.aborted,
          { stderr := "PyPy assertion failed at rlist.c:42:\nin ll_getitem: index out of bounds\n",
            raised := [] }) :=
  ((C8_RPyAssert_enabled
    { RPY_ASSERT := true, RPY_LL_ASSERT := false, RPY_SANDBOXED := false } rfl
    "rlist.c" 42 "ll_getitem" (pure false) "index out of bounds" World.init World.init false
    rfl).2.1 rfl).trans (by decide)

/-- C9, as the code has it: `RPyAbort`, on every invocation, appends the fixed
diagnostic `Invalid RPython operation (NULL ptr or bad array index)` and a
newline to the standard error stream and then terminates the process. -/
theorem C9_RPyAbort_diagnostic (w : World) :
    RPyAbort w =
      (Outcome.aborted,
        { w with stderr := w.stderr ++
            "Invalid RPython operation (NULL ptr or bad array index)\n" }) := rfl

/-- C9 as stated fails: what `RPyAbort` writes from a fresh process is not the
text `invalid operation: null reference or bad index`, and does not contain
it. -/
theorem C9_RPyAbort_text_counterexample :
    (RPyAbort World.init).2.stderr ≠ "invalid operation: null reference or bad index" ∧
    ¬ ("invalid operation: null reference or bad index".data
        <:+: (RPyAbort World.init).2.stderr.data) := by
  decide

/-- C10: for every container and every index outside `0 <= i < length`,
checked `RPyItem` terminates the process after appending to the standard error
stream a diagnostic that contains `Invalid RPython operation`, while the same
access through unchecked `RPyItem` does not end in the abort and leaves the
standard error stream (and the rest of the state) as it was. -/
theorem C10_out_of_range_end_to_end {α : Type} (a : RPyArray α) (i : Int)
    (hi : ¬ (0 ≤ i ∧ i < a.length)) (w : World) :
    (Checked.RPyItem (Ptr.addr a) i w).1 = Outcome.aborted ∧
    (∃ d : String, (Checked.RPyItem (Ptr.addr a) i w).2.stderr = w.stderr ++ d ∧
      "Invalid RPython operation".data <:+: d.data) ∧
    (Unchecked.RPyItem (Ptr.addr a) i w).1 ≠ Outcome.aborted ∧
    (Unchecked.RPyItem (Ptr.addr a) i w).2 = w := by
  rw [RPyItem_checked_addr, if_neg hi, RPyItem_unchecked_apply]
  refine ⟨rfl, ⟨RPyAbort_text, rfl, ?_⟩, Cells.read_not_aborted _ _ _, Cells.read_world _ _ _⟩
  exact ⟨[], " (NULL ptr or bad array index)\n".data, by decide⟩

/-- C10 at the array of length 3 accessed at index 5. -/
theorem C10_out_of_range_end_to_end_witness :
    (Checked.RPyItem (Ptr.addr arr3) 5 World.init).1 = Outcome.aborted ∧
    (Checked.RPyItem (Ptr.addr arr3) 5 World.init).2.stderr
      = "Invalid RPython operation (NULL ptr or bad array index)\n" ∧
    (Unchecked.RPyItem (Ptr.addr arr3) 5 World.init).1 ≠ Outcome.aborted ∧
    (Unchecked.RPyItem (Ptr.addr arr3) 5 World.init).2 = World.init :=
  ⟨(C10_out_of_range_end_to_end arr3 5 (by decide) World.init).1,
    by decide,
    (C10_out_of_range_end_to_end arr3 5 (by decide) World.init).2.2.1,
    (C10_out_of_range_end_to_end arr3 5 (by decide) World.init).2.2.2⟩

/-! ## Exception-raise macros -/

/-- C11: for every message and whatever the collaborator
`RPyRaiseSimpleException` is, each of `FAIL_OVF(msg)`, `FAIL_VAL(msg)` and
`FAIL_ZER(msg)` is exactly one call to it, with the message unchanged and the
kind `PyExc_OverflowError`, `PyExc_ValueError` and `PyExc_ZeroDivisionError`
respectively, and nothing else; the three kinds are pairwise distinct. -/
theorem C11_FAIL_single_call (raiser : ExcKind → String → Exec Unit) (msg : String) :
    FAIL_OVF raiser msg = raiser ExcKind.PyExc_OverflowError msg ∧
    FAIL_VAL raiser msg = raiser ExcKind.PyExc_ValueError msg ∧
    FAIL_ZER raiser msg = raiser ExcKind.PyExc_ZeroDivisionError msg ∧
    ExcKind.PyExc_OverflowError ≠ ExcKind.PyExc_ValueError ∧
    ExcKind.PyExc_OverflowError ≠ ExcKind.PyExc_ZeroDivisionError ∧
    ExcKind.PyExc_ValueError ≠ ExcKind.PyExc_ZeroDivisionError :=
  ⟨rfl, rfl, rfl, by decide, by decide, by decide⟩

/-- C11 with the collaborator that records its calls: from a fresh process,
after `FAIL_OVF`, `FAIL_VAL`, `FAIL_ZER` the record holds exactly one call,
with the kind of the trigger and its message. -/
theorem C11_FAIL_single_call_witness :
    (FAIL_OVF RPyRaiseSimpleException "integer addition" World.init).2.raised
      = [(ExcKind.PyExc_OverflowError, "integer addition")] ∧
    (FAIL_VAL RPyRaiseSimpleException "chr() arg not in range(256)" World.init).2.raised
      = [(ExcKind.PyExc_ValueError, "chr() arg not in range(256)")] ∧
    (FAIL_ZER RPyRaiseSimpleException "integer division" World.init).2.raised
      = [(ExcKind.PyExc_ZeroDivisionError, "integer division")] :=
  ⟨by rw [(C11_FAIL_single_call RPyRaiseSimpleException "integer addition").1]; rfl,
    by rw [(C11_FAIL_single_call RPyRaiseSimpleException
      "chr() arg not in range(256)").2.1]; rfl,
    by rw [(C11_FAIL_single_call RPyRaiseSimpleException "integer division").2.2.1]; rfl⟩

theorem RPyAbort_raised (w : World) : (RPyAbort w).2.raised = w.raised := rfl

theorem RPyRaiseSimpleException_apply (exc : ExcKind) (msg : String) (w : World) :
    RPyRaiseSimpleException exc msg w =
      (Outcome.raised, { w with raised := w.raised ++ [(exc, msg)] }) := rfl

/-- C12: a checked accessor whose check fails ends in the fatal abort of
`RPyAbort`, and `RPyAbort` leaves the record of calls to
`RPyRaiseSimpleException` as it was; conversely, for every message, `FAIL_OVF`,
`FAIL_VAL` and `FAIL_ZER`, run with the collaborator as the spec describes it,
end with the exception raised (one call recorded), never in the abort, and
write nothing to the standard error stream. -/
theorem C12_failure_taxonomies_disjoint (w : World) :
    (∀ (σ α : Type) (name : σ → α),
      Checked.RPyField (Ptr.null : Ptr σ) name w = (Outcome.aborted, (RPyAbort w).2)) ∧
    (∀ (α : Type) (array : Ptr (RPyArray α)) (i : Int),
      (i < 0 ∨ ∃ a, array = Ptr.addr a ∧ a.length ≤ i) →
        Checked.RPyItem array i w = (Outcome.aborted, (RPyAbort w).2)) ∧
    (∀ (α : Type) (ptr : Ptr (Cells α)) (i n : Int),
      ¬ (ptr ≠ Ptr.null ∧ 0 ≤ i ∧ i < n) →
        Checked.RPyFxItem ptr i n w = (Outcome.aborted, (RPyAbort w).2)) ∧
    (∀ (α : Type) (array : Ptr (RPyArray α)) (i : Int),
      ¬ (array ≠ Ptr.null ∧ 0 ≤ i) →
        Checked.RPyNLenItem array i w = (Outcome.aborted, (RPyAbort w).2)) ∧
    (∀ (α : Type) (array : Ptr (Cells α)) (i : Int),
      ¬ (array ≠ Ptr.null ∧ 0 ≤ i) →
        Checked.RPyBareItem array i w = (Outcome.aborted, (RPyAbort w).2)) ∧
    (RPyAbort w).2.raised = w.raised ∧
    (∀ msg : String,
      FAIL_OVF RPyRaiseSimpleException msg w =
        (Outcome.raised,
          { w with raised := w.raised ++ [(ExcKind.PyExc_OverflowError, msg)] }) ∧
      FAIL_VAL RPyRaiseSimpleException msg w =
        (Outcome.raised,
          { w with raised := w.raised ++ [(ExcKind.PyExc_ValueError, msg)] }) ∧
      FAIL_ZER RPyRaiseSimpleException msg w =
        (Outcome.raised,
          { w with raised := w.raised ++ [(ExcKind.PyExc_ZeroDivisionError, msg)] })) ∧
    (∀ msg : String,
      (FAIL_OVF RPyRaiseSimpleException msg w).1 ≠ Outcome.aborted ∧
      (FAIL_VAL RPyRaiseSimpleException msg w).1 ≠ Outcome.aborted ∧
      (FAIL_ZER RPyRaiseSimpleException msg w).1 ≠ Outcome.aborted ∧
      (FAIL_OVF RPyRaiseSimpleException msg w).2.stderr = w.stderr ∧
      (FAIL_VAL RPyRaiseSimpleException msg w).2.stderr = w.stderr ∧
      (FAIL_ZER RPyRaiseSimpleException msg w).2.stderr = w.stderr) := by
  refine ⟨?_, ?_, ?_, ?_, ?_, rfl, fun msg => ⟨rfl, rfl, rfl⟩, fun msg => ?_⟩
  · intro σ α name
    rw [RPyField_checked_apply]
  · intro α array i h
    cases array with
    | null =>
      have hi : ¬ 0 ≤ i := by
        rcases h with h | ⟨a, ha, _⟩
        · omega
        · cases ha
      rw [RPyItem_checked_null, if_neg hi]
    | addr a0 =>
      have hi : ¬ (0 ≤ i ∧ i < a0.length) := by
        rcases h with h | ⟨a, ha, hlen⟩
        · omega
        · cases ha
          omega
      rw [RPyItem_checked_addr, if_neg hi]
  · intro α ptr i n h
    rw [RPyFxItem_checked_apply]
    cases ptr with
    | null => rfl
    | addr p =>
      have h2 : ¬ (0 ≤ i ∧ i < n) := fun hc => h ⟨by simp, hc⟩
      simp only [if_neg h2]
  · intro α array i h
    rw [RPyNLenItem_checked_apply]
    cases array with
    | null => rfl
    | addr a =>
      have h2 : ¬ 0 ≤ i := fun hc => h ⟨by simp, hc⟩
      simp only [if_neg h2]
  · intro α array i h
    rw [RPyBareItem_checked_apply]
    cases array with
    | null => rfl
    | addr p =>
      have h2 : ¬ 0 ≤ i := fun hc => h ⟨by simp, hc⟩
      simp only [if_neg h2]
  · simp [FAIL_OVF, FAIL_VAL, FAIL_ZER, FAIL_EXCEPTION, RPyRaiseSimpleException_apply]

/-- C12 on concrete inputs: index 5 of `arr3` through checked `RPyItem` aborts
with no call recorded; `FAIL_ZER` from a fresh process raises, with one call
recorded and nothing written. -/
theorem C12_failure_taxonomies_disjoint_witness :
    Checked.RPyItem (Ptr.addr arr3) 5 World.init
      = (Outcome.aborted,
          { stderr := "Invalid RPython operation (NULL ptr or bad array index)\n",
            raised := [] }) ∧
    FAIL_ZER RPyRaiseSimpleException "integer division" World.init
      = (Outcome.raised,
          { stderr := "", raised := [(ExcKind.PyExc_ZeroDivisionError, "integer division")] }) :=
  ⟨((C12_failure_taxonomies_disjoint World.init).2.1 Int (Ptr.addr arr3) 5
      (Or.inr ⟨arr3, rfl, by decide⟩)).trans (by decide),
    ((C12_failure_taxonomies_disjoint World.init).2.2.2.2.2.2.1 "integer division").2.2.trans
      (by decide)⟩

/-! ## Unchecked accessors -/

theorem Ptr.deref_not_aborted {σ : Type} (ptr : Ptr σ) (w : World) :
    (ptr.deref w).1 ≠ Outcome.aborted := by
  cases ptr <;> simp [Ptr.deref]

theorem RPyFxItem_unchecked_apply {α : Type} (ptr : Ptr (Cells α)) (i n : Int) (w : World) :
    Unchecked.RPyFxItem ptr i n w =
      match ptr with
      | Ptr.null => (Outcome.nullDeref, w)
      | Ptr.addr p => p.read i w := by
  cases ptr <;> simp [Unchecked.RPyFxItem, Ptr.deref, Exec.bind_apply, Exec.seq]

theorem RPyNLenItem_unchecked_apply {α : Type} (array : Ptr (RPyArray α)) (i : Int)
    (w : World) :
    Unchecked.RPyNLenItem array i w =
      match array with
      | Ptr.null => (Outcome.nullDeref, w)
      | Ptr.addr a => a.items.read i w := by
  cases array <;> simp [Unchecked.RPyNLenItem, Ptr.deref, Exec.bind_apply, Exec.seq]

theorem RPyBareItem_unchecked_apply {α : Type} (array : Ptr (Cells α)) (i : Int)
    (w : World) :
    Unchecked.RPyBareItem array i w =
      match array with
      | Ptr.null => (Outcome.nullDeref, w)
      | Ptr.addr p => p.read i w := by
  cases array <;> simp [Unchecked.RPyBareItem, Ptr.deref, Exec.bind_apply, Exec.seq]

theorem RPyField_unchecked_quiet {σ α : Type} (ptr : Ptr σ) (name : σ → α) (w : World) :
    (Unchecked.RPyField ptr name w).1 ≠ Outcome.aborted ∧
      (Unchecked.RPyField ptr name w).2 = w := by
  rw [RPyField_unchecked_apply]
  cases ptr <;> simp

theorem RPyItem_unchecked_quiet {α : Type} (array : Ptr (RPyArray α)) (i : Int) (w : World) :
    (Unchecked.RPyItem array i w).1 ≠ Outcome.aborted ∧
      (Unchecked.RPyItem array i w).2 = w := by
  rw [RPyItem_unchecked_apply]
  cases array with
  | null => simp
  | addr a => exact ⟨Cells.read_not_aborted _ _ _, Cells.read_world _ _ _⟩

theorem RPyFxItem_unchecked_quiet {α : Type} (ptr : Ptr (Cells α)) (i n : Int) (w : World) :
    (Unchecked.RPyFxItem ptr i n w).1 ≠ Outcome.aborted ∧
      (Unchecked.RPyFxItem ptr i n w).2 = w := by
  rw [RPyFxItem_unchecked_apply]
  cases ptr with
  | null => simp
  | addr p => exact ⟨Cells.read_not_aborted _ _ _, Cells.read_world _ _ _⟩

theorem RPyNLenItem_unchecked_quiet {α : Type} (array : Ptr (RPyArray α)) (i : Int)
    (w : World) :
    (Unchecked.RPyNLenItem array i w).1 ≠ Outcome.aborted ∧
      (Unchecked.RPyNLenItem array i w).2 = w := by
  rw [RPyNLenItem_unchecked_apply]
  cases array with
  | null => simp
  | addr a => exact ⟨Cells.read_not_aborted _ _ _, Cells.read_world _ _ _⟩

theorem RPyBareItem_unchecked_quiet {α : Type} (array : Ptr (Cells α)) (i : Int)
    (w : World) :
    (Unchecked.RPyBareItem array i w).1 ≠ Outcome.aborted ∧
      (Unchecked.RPyBareItem array i w).2 = w := by
  rw [RPyBareItem_unchecked_apply]
  cases array with
  | null => simp
  | addr p => exact ⟨Cells.read_not_aborted _ _ _, Cells.read_world _ _ _⟩

/-- C13: in a build with neither `RPY_LL_ASSERT` nor `RPY_SANDBOXED`, for every
input (null or non-null reference, any index, any fixed size), each of
`RPyField`, `RPyItem`, `RPyFxItem`, `RPyNLenItem` and `RPyBareItem` is exactly
the raw access (`ptr->name`, `array->items[index]`, `ptr[index]`): it never
ends in the abort of `RPyAbort` and leaves the state, standard error stream
included, as it was; `RPyFxItem` gives the same result for every `fixedsize`. -/
theorem C13_unchecked_mode_raw_access (cfg : Config) (hll : cfg.RPY_LL_ASSERT = false)
    (hsb : cfg.RPY_SANDBOXED = false) (w : World) :
    (∀ (σ α : Type) (ptr : Ptr σ) (name : σ → α),
      RPyField cfg ptr name w = (ptr.deref >>= fun s => pure (name s)) w ∧
      (RPyField cfg ptr name w).1 ≠ Outcome.aborted ∧
      (RPyField cfg ptr name w).2 = w) ∧
    (∀ (α : Type) (array : Ptr (RPyArray α)) (i : Int),
      RPyItem cfg array i w = (array.deref >>= fun a => a.items.read i) w ∧
      (RPyItem cfg array i w).1 ≠ Outcome.aborted ∧
      (RPyItem cfg array i w).2 = w) ∧
    (∀ (α : Type) (ptr : Ptr (Cells α)) (i n : Int),
      RPyFxItem cfg ptr i n w = (ptr.deref >>= fun p => p.read i) w ∧
      (RPyFxItem cfg ptr i n w).1 ≠ Outcome.aborted ∧
      (RPyFxItem cfg ptr i n w).2 = w ∧
      (∀ m : Int, RPyFxItem cfg ptr i m w = RPyFxItem cfg ptr i n w)) ∧
    (∀ (α : Type) (array : Ptr (RPyArray α)) (i : Int),
      RPyNLenItem cfg array i w = (array.deref >>= fun a => a.items.read i) w ∧
      (RPyNLenItem cfg array i w).1 ≠ Outcome.aborted ∧
      (RPyNLenItem cfg array i w).2 = w) ∧
    (∀ (α : Type) (array : Ptr (Cells α)) (i : Int),
      RPyBareItem cfg array i w = (array.deref >>= fun p => p.read i) w ∧
      (RPyBareItem cfg array i w).1 ≠ Outcome.aborted ∧
      (RPyBareItem cfg array i w).2 = w) := by
  obtain ⟨as, ll, sb⟩ := cfg
  simp only at hll hsb
  subst hll hsb
  refine ⟨?_, ?_, ?_, ?_, ?_⟩
  · intro σ α ptr name
    exact ⟨rfl, RPyField_unchecked_quiet ptr name w⟩
  · intro α array i
    exact ⟨rfl, RPyItem_unchecked_quiet array i w⟩
  · intro α ptr i n
    exact ⟨rfl, (RPyFxItem_unchecked_quiet ptr i n w).1, (RPyFxItem_unchecked_quiet ptr i n w).2,
      fun m => rfl⟩
  · intro α array i
    exact ⟨rfl, RPyNLenItem_unchecked_quiet array i w⟩
  · intro α array i
    exact ⟨rfl, RPyBareItem_unchecked_quiet array i w⟩

/-- C13 in the build with only `RPY_ASSERT` defined: `RPyField` on a null
reference and `RPyItem` at index -1 of `arr3` do not abort and write nothing. -/
theorem C13_unchecked_mode_raw_access_witness :
    (RPyField { RPY_ASSERT := true, RPY_LL_ASSERT := false, RPY_SANDBOXED := false }
      (Ptr.null : Ptr Pair) Pair.first World.init).1 ≠ Outcome.aborted ∧
    (RPyItem { RPY_ASSERT := true, RPY_LL_ASSERT := false, RPY_SANDBOXED := false }
      (Ptr.addr arr3) (-1) World.init).1 ≠ Outcome.aborted ∧
    (RPyItem { RPY_ASSERT := true, RPY_LL_ASSERT := false, RPY_SANDBOXED := false }
      (Ptr.addr arr3) (-1) World.init).2 = World.init :=
  ⟨((C13_unchecked_mode_raw_access
      { RPY_ASSERT := true, RPY_LL_ASSERT := false, RPY_SANDBOXED := false } rfl rfl
      World.init).1 Pair Int Ptr.null Pair.first).2.1,
    ((C13_unchecked_mode_raw_access
      { RPY_ASSERT := true, RPY_LL_ASSERT := false, RPY_SANDBOXED := false } rfl rfl
      World.init).2.1 Int (Ptr.addr arr3) (-1)).2.1,
    ((C13_unchecked_mode_raw_access
      { RPY_ASSERT := true, RPY_LL_ASSERT := false, RPY_SANDBOXED := false } rfl rfl
      World.init).2.1 Int (Ptr.addr arr3) (-1)).2.2⟩

/-! ## Null references in the checked accessors -/

/-- C14, as the code has it: checked `RPyItem` makes no null test.  On a null
array with an index `i >= 0` its check reads `array->length`, so the outcome is
the null dereference, with nothing written, and not the abort of `RPyAbort`;
with `i < 0` the test `index >= 0` fails first, the length is not read, and
the outcome is the abort of `RPyAbort`.  Checked `RPyFxItem`, `RPyNLenItem`
and `RPyBareItem` on a null reference end in the abort of `RPyAbort` for every
index. -/
theorem C14_RPyItem_null_array {α : Type} (i : Int) (w : World) :
    (0 ≤ i → Checked.RPyItem (Ptr.null : Ptr (RPyArray α)) i w = (Outcome.nullDeref, w)) ∧
    (i < 0 → Checked.RPyItem (Ptr.null : Ptr (RPyArray α)) i w
      = (Outcome.aborted, (RPyAbort w).2)) ∧
    (∀ n : Int, Checked.RPyFxItem (Ptr.null : Ptr (Cells α)) i n w
      = (Outcome.aborted, (RPyAbort w).2)) ∧
    Checked.RPyNLenItem (Ptr.null : Ptr (RPyArray α)) i w
      = (Outcome.aborted, (RPyAbort w).2) ∧
    Checked.RPyBareItem (Ptr.null : Ptr (Cells α)) i w
      = (Outcome.aborted, (RPyAbort w).2) := by
  refine ⟨fun h => ?_, fun h => ?_, fun n => ?_, ?_, ?_⟩
  · rw [RPyItem_checked_null, if_pos h]
  · rw [RPyItem_checked_null, if_neg (by omega)]
  · rw [RPyFxItem_checked_apply]
  · rw [RPyNLenItem_checked_apply]
  · rw [RPyBareItem_checked_apply]

/-- C14 on a null array: index 0 is the null dereference, index -1 aborts. -/
theorem C14_RPyItem_null_array_witness :
    Checked.RPyItem (Ptr.null : Ptr (RPyArray Int)) 0 World.init
      = (Outcome.nullDeref, World.init) ∧
    Checked.RPyItem (Ptr.null : Ptr (RPyArray Int)) (-1) World.init
      = (Outcome.aborted, (RPyAbort World.init).2) ∧
    Checked.RPyNLenItem (Ptr.null : Ptr (RPyArray Int)) 0 World.init
      = (Outcome.aborted, (RPyAbort World.init).2) :=
  ⟨(C14_RPyItem_null_array 0 World.init).1 (by decide),
    (C14_RPyItem_null_array (-1) World.init).2.1 (by decide),
    (C14_RPyItem_null_array 0 World.init).2.2.2.1⟩

/-- C14 as stated fails: checked `RPyItem` on a null array at index -1 ends in
the abort of `RPyAbort`, with its diagnostic written, and not in the null
dereference. -/
theorem C14_RPyItem_null_negative_counterexample :
    Checked.RPyItem (Ptr.null : Ptr (RPyArray Int)) (-1) World.init
      = (Outcome.aborted,
          { stderr := "Invalid RPython operation (NULL ptr or bad array index)\n",
            raised := [] }) ∧
    (Checked.RPyItem (Ptr.null : Ptr (RPyArray Int)) (-1) World.init).1
      ≠ Outcome.nullDeref := by
  decide

/-! ## Checked against unchecked -/

/-- C15: for each of the five accessors and every input, the checked
expansion either ends in the abort of `RPyAbort` or gives exactly the result
of the unchecked expansion (`ptr->name`, `array->items[index]`, `ptr[index]`)
on the same input; it gives the result of the unchecked expansion whenever
its check passes, and whenever it does not abort. -/
theorem C15_checked_refines_unchecked (w : World) :
    (∀ (σ α : Type) (ptr : Ptr σ) (name : σ → α),
      (ptr ≠ Ptr.null →
        Checked.RPyField ptr name w = Unchecked.RPyField ptr name w) ∧
      ((Checked.RPyField ptr name w).1 ≠ Outcome.aborted →
        Checked.RPyField ptr name w = Unchecked.RPyField ptr name w) ∧
      ((Checked.RPyField ptr name w).1 = Outcome.aborted →
        Checked.RPyField ptr name w = (Outcome.aborted, (RPyAbort w).2))) ∧
    (∀ (α : Type) (array : Ptr (RPyArray α)) (i : Int),
      (∀ a, array = Ptr.addr a → 0 ≤ i ∧ i < a.length →
        Checked.RPyItem array i w = Unchecked.RPyItem array i w) ∧
      ((Checked.RPyItem array i w).1 ≠ Outcome.aborted →
        Checked.RPyItem array i w = Unchecked.RPyItem array i w) ∧
      ((Checked.RPyItem array i w).1 = Outcome.aborted →
        Checked.RPyItem array i w = (Outcome.aborted, (RPyAbort w).2))) ∧
    (∀ (α : Type) (ptr : Ptr (Cells α)) (i n : Int),
      (ptr ≠ Ptr.null ∧ 0 ≤ i ∧ i < n →
        Checked.RPyFxItem ptr i n w = Unchecked.RPyFxItem ptr i n w) ∧
      ((Checked.RPyFxItem ptr i n w).1 ≠ Outcome.aborted →
        Checked.RPyFxItem ptr i n w = Unchecked.RPyFxItem ptr i n w) ∧
      ((Checked.RPyFxItem ptr i n w).1 = Outcome.aborted →
        Checked.RPyFxItem ptr i n w = (Outcome.aborted, (RPyAbort w).2))) ∧
    (∀ (α : Type) (array : Ptr (RPyArray α)) (i : Int),
      (array ≠ Ptr.null ∧ 0 ≤ i →
        Checked.RPyNLenItem array i w = Unchecked.RPyNLenItem array i w) ∧
      ((Checked.RPyNLenItem array i w).1 ≠ Outcome.aborted →
        Checked.RPyNLenItem array i w = Unchecked.RPyNLenItem array i w) ∧
      ((Checked.RPyNLenItem array i w).1 = Outcome.aborted →
        Checked.RPyNLenItem array i w = (Outcome.aborted, (RPyAbort w).2))) ∧
    (∀ (α : Type) (array : Ptr (Cells α)) (i : Int),
      (array ≠ Ptr.null ∧ 0 ≤ i →
        Checked.RPyBareItem array i w = Unchecked.RPyBareItem array i w) ∧
      ((Checked.RPyBareItem array i w).1 ≠ Outcome.aborted →
        Checked.RPyBareItem array i w = Unchecked.RPyBareItem array i w) ∧
      ((Checked.RPyBareItem array i w).1 = Outcome.aborted →
        Checked.RPyBareItem array i w = (Outcome.aborted, (RPyAbort w).2))) := by
  refine ⟨?_, ?_, ?_, ?_, ?_⟩
  · intro σ α ptr name
    rw [RPyField_checked_apply, RPyField_unchecked_apply]
    cases ptr <;> simp
  · intro α array i
    rw [RPyItem_unchecked_apply]
    cases array with
    | null =>
      rw [RPyItem_checked_null]
      by_cases h : 0 ≤ i <;> simp [h]
    | addr a0 =>
      rw [RPyItem_checked_addr]
      by_cases h : 0 ≤ i ∧ i < a0.length
      · rw [if_pos h]
        exact ⟨fun _ _ _ => rfl, fun _ => rfl,
          fun hab => absurd hab (Cells.read_not_aborted _ _ _)⟩
      · rw [if_neg h]
        refine ⟨fun a ha hin => ?_, fun hne => absurd rfl hne, fun _ => rfl⟩
        cases ha
        exact absurd hin h
  · intro α ptr i n
    rw [RPyFxItem_checked_apply, RPyFxItem_unchecked_apply]
    cases ptr with
    | null => simp
    | addr p =>
      dsimp only
      by_cases h : 0 ≤ i ∧ i < n
      · rw [if_pos h]
        exact ⟨fun _ => rfl, fun _ => rfl,
          fun hab => absurd hab (Cells.read_not_aborted _ _ _)⟩
      · rw [if_neg h]
        exact ⟨fun hin => absurd hin.2 h, fun hne => absurd rfl hne, fun _ => rfl⟩
  · intro α array i
    rw [RPyNLenItem_checked_apply, RPyNLenItem_unchecked_apply]
    cases array with
    | null => simp
    | addr a =>
      dsimp only
      by_cases h : 0 ≤ i
      · rw [if_pos h]
        exact ⟨fun _ => rfl, fun _ => rfl,
          fun hab => absurd hab (Cells.read_not_aborted _ _ _)⟩
      · rw [if_neg h]
        exact ⟨fun hin => absurd hin.2 h, fun hne => absurd rfl hne, fun _ => rfl⟩
  · intro α array i
    rw [RPyBareItem_checked_apply, RPyBareItem_unchecked_apply]
    cases array with
    | null => simp
    | addr p =>
      dsimp only
      by_cases h : 0 ≤ i
      · rw [if_pos h]
        exact ⟨fun _ => rfl, fun _ => rfl,
          fun hab => absurd hab (Cells.read_not_aborted _ _ _)⟩
      · rw [if_neg h]
        exact ⟨fun hin => absurd hin.2 h, fun hne => absurd rfl hne, fun _ => rfl⟩

/-- C15 on concrete inputs: at index 1 of `arr3` and at field `second` of a
structure, checked and unchecked yield the same value. -/
theorem C15_checked_refines_unchecked_witness :
    Checked.RPyItem (Ptr.addr arr3) 1 World.init
      = Unchecked.RPyItem (Ptr.addr arr3) 1 World.init ∧
    Unchecked.RPyItem (Ptr.addr arr3) 1 World.init = (Outcome.value 20, World.init) ∧
    Checked.RPyField (Ptr.addr (Pair.mk 7 9)) Pair.second World.init
      = Unchecked.RPyField (Ptr.addr (Pair.mk 7 9)) Pair.second World.init :=
  ⟨((C15_checked_refines_unchecked World.init).2.1 Int (Ptr.addr arr3) 1).1 arr3 rfl
      (by decide),
    by decide,
    ((C15_checked_refines_unchecked World.init).1 Pair Int (Ptr.addr (Pair.mk 7 9))
      Pair.second).1 (by simp)⟩

/-! ## Miscellaneous -/

/-- C16: for all integers `a` and `b`, `MIN(a, b)` is `a` when `a < b` and `b`
otherwise; it is one of `a` and `b`, at most `a` and at most `b`, equal to
`MIN(b, a)`, and `MIN(a, a)` is `a`. -/
theorem C16_MIN (a b : Int) :
    (a < b → MIN a b = a) ∧
    (¬ a < b → MIN a b = b) ∧
    (MIN a b = a ∨ MIN a b = b) ∧
    MIN a b ≤ a ∧
    MIN a b ≤ b ∧
    MIN a b = MIN b a ∧
    MIN a a = a := by
  unfold MIN
  refine ⟨fun h => if_pos h, fun h => if_neg h, ?_, ?_, ?_, ?_, ?_⟩
  · by_cases h : a < b <;> simp [h]
  · by_cases h : a < b
    · simp [h]
    · rw [if_neg h]
      omega
  · by_cases h : a < b
    · rw [if_pos h]
      omega
    · simp [h]
  · by_cases h : a < b <;> by_cases h2 : b < a
    · omega
    · rw [if_pos h, if_neg h2]
    · rw [if_neg h, if_pos h2]
    · rw [if_neg h, if_neg h2]
      omega
  · simp

/-- C16 on concrete integers. -/
theorem C16_MIN_witness :
    MIN 3 5 = 3 ∧ MIN 5 3 = 3 ∧ MIN (-2) (-2) = -2 ∧ MIN (-7) 4 = -7 :=
  ⟨(C16_MIN 3 5).1 (by decide), (C16_MIN 5 3).2.1 (by decide), (C16_MIN (-2) (-2)).2.2.2.2.2.2,
    (C16_MIN (-7) 4).1 (by decide)⟩

end Support
